import Mathlib

/-!
Verification of the attendance/task-report frontend logic (intakesense/hrms).

This file shallowly embeds the logic of three components:
  * AttendanceTable.tsx — status resolution (processedRecords), windowed
    filter/sort pagination (updateCurrentWindow, handlePageChange,
    totalPages), location validity (hasValidLocation), and bulk status
    updates (handleBulkStatusUpdate).
  * MyTaskReports.tsx — task-report submission validation
    (handleSubmitTasks, handleSaveEdit).
  * Header (employee check-in/check-out controls) — the disabled
    conditions of the two buttons.

Modelling conventions:
  * Optional JS string fields become Option String.  JS truthiness for a
    string is "defined and non-empty": the source tests fields like
    record.checkIn and record.status with plain truthiness (the operators
    used are the JS or-operator and conditional tests), so "present" and
    "absent" below always mean JS-truthy and JS-falsy.
  * JS numbers become an inductive over a NaN marker and an exact rational
    value; this is exact for the equality, zero and NaN tests this code
    performs (no float rounding is ever observed by the claims).
  * Array.prototype.sort with a comparator is a stable sort whose order is
    given by the sign of the comparator; it is embedded as List.mergeSort
    on the Bool relation (comparator result is nonpositive), which is the
    stable sort of the Lean core library.
  * new Date(s).getTime() for a calendar-date string "YYYY-MM-DD" is the
    millisecond epoch value of that UTC midnight, computed exactly by
    dateMs below; a non-matching or invalid string yields none (JS NaN).
-/

/-! ## JS value model -/

/-- JS truthiness of an optional string: defined and non-empty. -/
def jsTruthyStr (o : Option String) : Bool :=
  match o with
  | some s => !(s == "")
  | none => false

/-- The JS or-operator on an optional string with a string default:
the left value when truthy, otherwise the default. -/
def jsOrDefault (o : Option String) (d : String) : String :=
  match o with
  | some s => if s == "" then d else s
  | none => d

/-- The JS or-operator with both sides optional strings (used for
the holidayTitle fallback). -/
def jsOrOpt (a b : Option String) : Option String :=
  if jsTruthyStr a then a else b

/-- A JS number: NaN or an exact (rational) value. -/
inductive JSNumber where
  | nan : JSNumber
  | num (q : ℚ) : JSNumber
deriving DecidableEq

/-- JS truthiness of a number: NaN and 0 are falsy. -/
def JSNumber.truthy : JSNumber → Bool
  | .nan => false
  | .num q => decide (q ≠ 0)

/-- The JS isNaN test. -/
def JSNumber.isNan : JSNumber → Bool
  | .nan => true
  | .num _ => false

/-- A JS primitive as it may arrive in the raw location payload:
a string or a number. -/
inductive JSPrim where
  | str (s : String) : JSPrim
  | num (n : JSNumber) : JSPrim
deriving DecidableEq

/-- JS truthiness of a primitive: the empty string, 0 and NaN are falsy. -/
def JSPrim.truthy : JSPrim → Bool
  | .str s => !(s == "")
  | .num n => n.truthy

/-- JS truthiness of an optional primitive. -/
def jsTruthyPrim (o : Option JSPrim) : Bool :=
  match o with
  | some p => p.truthy
  | none => false

/-- Digit list to the natural number it denotes. -/
def digitsToNat (ds : List Char) : Nat :=
  ds.foldl (fun acc c => acc * 10 + (c.toNat - 48)) 0

/-- JS parseFloat on a character list: optional leading whitespace and
sign, then decimal digits with an optional fractional part; anything
else gives NaN.  (Exponents and infinities do not occur in this data.) -/
def parseFloatChars (cs : List Char) : JSNumber :=
  let cs1 := cs.dropWhile (fun c => c.isWhitespace)
  match cs1 with
  | '-' :: rest => parseFloatCore rest (-1)
  | '+' :: rest => parseFloatCore rest 1
  | _ => parseFloatCore cs1 1
where
  /-- Unsigned part of parseFloat. -/
  parseFloatCore (cs : List Char) (sign : ℚ) : JSNumber :=
    let intPart := cs.takeWhile (fun c => c.isDigit)
    let rest := cs.dropWhile (fun c => c.isDigit)
    let fracPart := match rest with
      | '.' :: r => r.takeWhile (fun c => c.isDigit)
      | _ => []
    if intPart.isEmpty && fracPart.isEmpty then .nan
    else .num (sign * ((digitsToNat intPart : ℚ) +
      (digitsToNat fracPart : ℚ) / ((10 : ℚ) ^ fracPart.length)))

/-- JS parseFloat applied to a primitive (a number parses to itself). -/
def parseFloatPrim : JSPrim → JSNumber
  | .str s => parseFloatChars s.toList
  | .num n => n

/-- JS parseFloat applied to a possibly-missing primitive
(parseFloat of undefined is NaN). -/
def parseFloatOpt : Option JSPrim → JSNumber
  | some p => parseFloatPrim p
  | none => .nan

/-! ## Calendar dates: new Date("YYYY-MM-DD").getTime() -/

/-- Proleptic Gregorian leap-year test. -/
def isLeapYear (y : Nat) : Bool :=
  (y % 4 == 0 && y % 100 != 0) || y % 400 == 0

/-- Days in a month of a given year. -/
def daysInMonth (y m : Nat) : Nat :=
  if m == 2 then (if isLeapYear y then 29 else 28)
  else if m == 4 || m == 6 || m == 9 || m == 11 then 30
  else 31

/-- Number of leap years in the interval from year 0 to year y - 1
(year 0 is a leap year in the proleptic Gregorian calendar). -/
def leapCount (y : Nat) : Nat :=
  if y == 0 then 0 else (y - 1) / 4 - (y - 1) / 100 + (y - 1) / 400 + 1

/-- Days from 0000-01-01 to the first day of year y. -/
def daysBeforeYear (y : Nat) : Nat :=
  365 * y + leapCount y

/-- Days from the first day of year y to the first day of month m. -/
def monthOffset (y m : Nat) : Nat :=
  (match m with
    | 1 => 0 | 2 => 31 | 3 => 59 | 4 => 90 | 5 => 120 | 6 => 151
    | 7 => 181 | 8 => 212 | 9 => 243 | 10 => 273 | 11 => 304 | _ => 334) +
  (if 2 < m && isLeapYear y then 1 else 0)

/-- Absolute day number of a civil date (days since 0000-01-01). -/
def dayNumber (y m d : Nat) : Nat :=
  daysBeforeYear y + monthOffset y m + (d - 1)

/-- Day number of the Unix epoch 1970-01-01. -/
def epochDayNumber : Nat := dayNumber 1970 1 1

/-- Parse a canonical ISO calendar-date string "YYYY-MM-DD" into
(year, month, day), validating month and day ranges exactly as the JS
Date ISO parser does; anything else is an invalid date. -/
def parseYMD (s : String) : Option (Nat × Nat × Nat) :=
  match s.toList with
  | [y1, y2, y3, y4, '-', m1, m2, '-', d1, d2] =>
    if y1.isDigit && y2.isDigit && y3.isDigit && y4.isDigit &&
       m1.isDigit && m2.isDigit && d1.isDigit && d2.isDigit then
      let y := digitsToNat [y1, y2, y3, y4]
      let m := digitsToNat [m1, m2]
      let d := digitsToNat [d1, d2]
      if 1 ≤ m && m ≤ 12 && 1 ≤ d && d ≤ daysInMonth y m then
        some (y, m, d)
      else none
    else none
  | _ => none

/-- new Date(s).getTime() for a calendar-date string: milliseconds since
the Unix epoch of that UTC midnight, or none (NaN) for an invalid date. -/
def dateMs (s : String) : Option Int :=
  (parseYMD s).map (fun ymd =>
    ((dayNumber ymd.1 ymd.2.1 ymd.2.2 : Int) - (epochDayNumber : Int)) * 86400000)

/-- ASCII digit character of a value below 10. -/
def digitChar (n : Nat) : Char :=
  Char.ofNat (48 + n)

/-- Two-digit zero-padded rendering (toISOString month/day field). -/
def render2 (n : Nat) : String :=
  String.mk [digitChar (n / 10 % 10), digitChar (n % 10)]

/-- Four-digit zero-padded rendering (toISOString year field for years
0 to 9999). -/
def render4 (n : Nat) : String :=
  String.mk [digitChar (n / 1000 % 10), digitChar (n / 100 % 10),
    digitChar (n / 10 % 10), digitChar (n % 10)]

/-- new Date(s).toISOString().split('T')[0] for a calendar-date string:
re-renders the parsed date; none models the RangeError thrown by
toISOString on an invalid date. -/
def toBaseDate (s : String) : Option String :=
  (parseYMD s).map (fun ymd =>
    render4 ymd.1 ++ "-" ++ render2 ymd.2.1 ++ "-" ++ render2 ymd.2.2)

/-! ## Attendance data model (AttendanceTable.tsx) -/

/-- The boolean flag set on an attendance record. -/
structure AttendanceFlags where
  isLate : Bool := false
  isLeave : Bool := false
  isHoliday : Bool := false
  isWeekend : Bool := false
deriving DecidableEq

/-- The raw location payload on a record: possibly-missing latitude and
longitude values that may be numbers or strings. -/
structure RawLocation where
  latitude : Option JSPrim := none
  longitude : Option JSPrim := none
deriving DecidableEq

/-- A raw attendance record as delivered by the backend, with the
optional fields the component reads. -/
structure RawRecord where
  id : Option String := none
  date : String := ""
  checkIn : Option String := none
  checkOut : Option String := none
  status : Option String := none
  flags : Option AttendanceFlags := none
  location : Option RawLocation := none
  holidayTitle : Option String := none
deriving DecidableEq

/-- The processed location: both coordinates as numbers, or null. -/
structure ProcessedLocation where
  latitude : JSNumber
  longitude : JSNumber
deriving DecidableEq

/-- A processed attendance record (ProcessedAttendanceRecord in the
source): status holds the resolved finalStatus. -/
structure ProcessedRecord where
  id : Option String := none
  date : String := ""
  checkIn : Option String := none
  checkOut : Option String := none
  status : String := ""
  flags : AttendanceFlags := {}
  location : Option ProcessedLocation := none
  holidayTitle : Option String := none
deriving DecidableEq

/-- The optional-chaining read record.flags?.isLeave. -/
def flagsIsLeave (f : Option AttendanceFlags) : Bool :=
  match f with
  | some fl => fl.isLeave
  | none => false

/-- The optional-chaining read record.flags?.isHoliday. -/
def flagsIsHoliday (f : Option AttendanceFlags) : Bool :=
  match f with
  | some fl => fl.isHoliday
  | none => false

/-- The optional-chaining read record.flags?.isWeekend. -/
def flagsIsWeekend (f : Option AttendanceFlags) : Bool :=
  match f with
  | some fl => fl.isWeekend
  | none => false

/-- The finalStatus computation of processedRecords
(AttendanceTable.tsx lines 93-106): start from record.status with the
"absent" default, and only when there is no check-in override it by the
flag precedence leave (flag or status) over holiday over weekend. -/
def resolveFinalStatus (r : RawRecord) : String :=
  let base := jsOrDefault r.status "absent"
  if !(jsTruthyStr r.checkIn) then
    if flagsIsLeave r.flags || r.status == some "leave" then "leave"
    else if flagsIsHoliday r.flags then "holiday"
    else if flagsIsWeekend r.flags then "weekend"
    else base
  else base

/-- The location processing of processedRecords (lines 114-117): keep a
location only when both raw coordinates are truthy, parsing each with
parseFloat; otherwise null. -/
def processLocation (loc : Option RawLocation) : Option ProcessedLocation :=
  match loc with
  | none => none
  | some l =>
    if jsTruthyPrim l.latitude && jsTruthyPrim l.longitude then
      some { latitude := parseFloatOpt l.latitude,
             longitude := parseFloatOpt l.longitude }
    else none

/-- The body of the processedRecords map (lines 90-121): resolve the
final status, normalize checkIn/checkOut to undefined when falsy,
process the location, default the flags, and apply the holidayTitle
fallback. -/
def processRecord (r : RawRecord) : ProcessedRecord :=
  { id := r.id
    date := r.date
    checkIn := if jsTruthyStr r.checkIn then r.checkIn else none
    checkOut := if jsTruthyStr r.checkOut then r.checkOut else none
    status := resolveFinalStatus r
    flags := r.flags.getD {}
    location := processLocation r.location
    holidayTitle := jsOrOpt r.holidayTitle
      (if flagsIsHoliday r.flags then some "Holiday" else none) }

/-- processedRecords: the whole record list processed. -/
def processRecords (rs : List RawRecord) : List ProcessedRecord :=
  rs.map processRecord

/-! ## Windowed filter/sort pagination (AttendanceTable.tsx) -/

/-- The sort order state ('asc' | 'desc'). -/
inductive SortOrder where
  | asc : SortOrder
  | desc : SortOrder
deriving DecidableEq

/-- The initial value of the sortOrder state (useState('desc')). -/
def defaultSortOrder : SortOrder := SortOrder.desc

/-- recordsPerPage = 7. -/
def recordsPerPage : Nat := 7

/-- The status filter of updateCurrentWindow (lines 135-137): keep
everything for "all", otherwise keep records whose status matches
exactly. -/
def filterByStatus (filter : String) (data : List ProcessedRecord) :
    List ProcessedRecord :=
  if filter == "all" then data
  else data.filter (fun r => r.status == filter)

/-- The sort comparator of updateCurrentWindow (lines 140-144): the
difference of the two getTime values, in the order given by the sort
direction; a comparison involving an invalid date is NaN, which the JS
sort treats as 0. -/
def compareRecords (order : SortOrder) (a b : ProcessedRecord) : Int :=
  match dateMs a.date, dateMs b.date with
  | some x, some y =>
    match order with
    | .desc => y - x
    | .asc => x - y
  | _, _ => 0

/-- The Bool order underlying the comparator: a sorts no later than b
when the comparator is nonpositive. -/
def recordLE (order : SortOrder) (a b : ProcessedRecord) : Bool :=
  decide (compareRecords order a b ≤ 0)

/-- Array.prototype.sort with the date comparator: a stable sort by the
comparator order. -/
def sortRecords (order : SortOrder) (l : List ProcessedRecord) :
    List ProcessedRecord :=
  List.mergeSort l (recordLE order)

/-- The window slice (lines 147-149): slice(start, start + pageSize)
of a list, which clips to the list bounds. -/
def windowSlice (l : List ProcessedRecord) (windowIndex pageSize : Nat) :
    List ProcessedRecord :=
  (l.drop (windowIndex * pageSize)).take pageSize

/-- updateCurrentWindow (lines 131-153): filter, stable-sort by date,
then take the window of recordsPerPage records at windowIndex. -/
def updateCurrentWindow (data : List ProcessedRecord) (windowIndex : Nat)
    (filter : String) (order : SortOrder) : List ProcessedRecord :=
  windowSlice (sortRecords order (filterByStatus filter data))
    windowIndex recordsPerPage

/-- The sortedRecords intermediate of updateCurrentWindow: the filtered
data stable-sorted by date. -/
def sortedRecords (data : List ProcessedRecord) (filter : String)
    (order : SortOrder) : List ProcessedRecord :=
  sortRecords order (filterByStatus filter data)

/-- getFilteredDataLength (lines 296-302): the length of the filtered
data. -/
def getFilteredDataLength (allData : List ProcessedRecord)
    (filter : String) : Nat :=
  (filterByStatus filter allData).length

/-- totalPages (lines 289 and 306): Math.ceil of the filtered length
over recordsPerPage, as a natural-number ceiling division. -/
def totalPages (n : Nat) : Nat :=
  (n + recordsPerPage - 1) / recordsPerPage

/-- The component state handlePageChange touches: the displayed window
and the window cursor. -/
structure TableState where
  displayedData : List ProcessedRecord
  currentWindowIndex : Nat
deriving DecidableEq

/-- handlePageChange (lines 288-293): recompute the window for
newPage - 1 when 1 <= newPage <= totalPages, otherwise leave the state
unchanged. -/
def handlePageChange (allData : List ProcessedRecord) (filter : String)
    (order : SortOrder) (st : TableState) (newPage : Int) : TableState :=
  let tp := totalPages (getFilteredDataLength allData filter)
  if 1 ≤ newPage ∧ newPage ≤ (tp : Int) then
    { displayedData :=
        updateCurrentWindow allData (newPage - 1).toNat filter order
      currentWindowIndex := (newPage - 1).toNat }
  else st

/-! ## Location validity and bulk updates (AttendanceTable.tsx) -/

/-- hasValidLocation (lines 332-347): both coordinates truthy and not
NaN (the truthiness tests come first in the source's conjunction). -/
def hasValidLocation (r : ProcessedRecord) : Bool :=
  match r.location with
  | none => false
  | some loc =>
    loc.latitude.truthy && loc.longitude.truthy &&
      !loc.latitude.isNan && !loc.longitude.isNan

/-- The location-validity predicate in the spec's words, for comparison:
both coordinates present, numeric, and not NaN.  On a processed record
the coordinates are present and numeric exactly when the location is
non-null, so only the NaN tests remain. -/
def specValidLocation (r : ProcessedRecord) : Bool :=
  match r.location with
  | none => false
  | some loc => !loc.latitude.isNan && !loc.longitude.isNan

/-- A bulk attendance update request as built by handleBulkStatusUpdate.
checkIn and checkOut distinguish a field that is absent (none) from one
set to null (some none). -/
structure AttendanceUpdateRequest where
  recordId : String
  status : String
  employeeId : String
  date : String
  checkIn : Option (Option String) := none
  checkOut : Option (Option String) := none
deriving DecidableEq

/-- The per-record body of handleBulkStatusUpdate (lines 375-410):
derive the base date from the record's date, then auto-fill the times
by target status; none models the exception thrown when the record's
date is not a valid date (toISOString on an invalid date). -/
def buildBulkUpdate (bulkStatus employeeId : String)
    (record : ProcessedRecord) : Option AttendanceUpdateRequest :=
  match toBaseDate record.date with
  | none => none
  | some baseDate =>
    let base : AttendanceUpdateRequest :=
      { recordId := jsOrDefault record.id "new"
        status := bulkStatus
        employeeId := employeeId
        date := record.date }
    some (match bulkStatus with
      | "present" =>
        { base with checkIn := some (some (baseDate ++ "T09:30:00"))
                    checkOut := some (some (baseDate ++ "T17:30:00")) }
      | "half-day" =>
        { base with checkIn := some (some (baseDate ++ "T09:30:00"))
                    checkOut := some (some (baseDate ++ "T13:30:00")) }
      | "absent" =>
        { base with checkIn := some none, checkOut := some none }
      | _ => base)

/-! ## Task report submission (MyTaskReports.tsx) -/

/-- The payload of a task-report submission. -/
structure TaskReportSubmission where
  tasks : List String
  date : String
deriving DecidableEq

/-- Outcome of a submission attempt: rejected locally with a
user-visible validation message (no network call), or submitted with a
payload. -/
inductive SubmitOutcome where
  | rejected (message : String) : SubmitOutcome
  | submitted (payload : TaskReportSubmission) : SubmitOutcome
deriving DecidableEq

/-- JS String.prototype.trim: strip leading and trailing whitespace. -/
def jsTrim (s : String) : String :=
  String.mk
    ((((s.toList.dropWhile (fun c => c.isWhitespace)).reverse.dropWhile
      (fun c => c.isWhitespace)).reverse))

/-- The task normalization both handlers perform:
tasks.map(t => t.trim()).filter(t => t !== ''). -/
def normalizeTasks (tasks : List String) : List String :=
  (tasks.map jsTrim).filter (fun t => !(t == ""))

/-- handleSubmitTasks (lines 125-156): reject with a validation message
when no non-empty task remains, otherwise submit the trimmed non-empty
tasks for the chosen date. -/
def handleSubmitTasks (submitTasks : List String) (submitDate : String) :
    SubmitOutcome :=
  let nonEmptyTasks := normalizeTasks submitTasks
  if nonEmptyTasks.length == 0 then
    .rejected "Please enter at least one task"
  else
    .submitted { tasks := nonEmptyTasks, date := submitDate }

/-- handleSaveEdit (lines 181-217): same validation, and the date is
the first ten characters of the report's date (or of createdAt when the
date is falsy). -/
def handleSaveEdit (editTasks : List String) (reportDate : Option String)
    (createdAt : String) : SubmitOutcome :=
  let nonEmptyTasks := normalizeTasks editTasks
  if nonEmptyTasks.length == 0 then
    .rejected "Please enter at least one task"
  else
    let dateForSubmit :=
      if jsTruthyStr reportDate then (reportDate.getD "").take 10
      else createdAt.take 10
    .submitted { tasks := nonEmptyTasks, date := dateForSubmit }

/-! ## Check-in/check-out header (Header component) -/

/-- The boolean props of the Header that feed the two buttons. -/
structure HeaderProps where
  isCheckedIn : Bool
  dailyCycleComplete : Bool
  checkInLoading : Bool
  checkOutLoading : Bool
  locationLoading : Bool
  wfhRequestPending : Bool
deriving DecidableEq

/-- The disabled condition of the check-in button (part_000 line 145). -/
def checkInDisabled (h : HeaderProps) : Bool :=
  h.isCheckedIn || h.checkInLoading || h.locationLoading ||
    h.dailyCycleComplete || h.wfhRequestPending

/-- The disabled condition of the check-out button (part_000 line 172). -/
def checkOutDisabled (h : HeaderProps) : Bool :=
  !h.isCheckedIn || h.checkOutLoading || h.dailyCycleComplete

/-! ## Concrete sample data for witnesses and counterexamples -/

/-- A raw record with a check-in, a backend status, and a holiday flag:
the flag must not override the status. -/
def rawCheckedInHoliday : RawRecord :=
  { date := "2024-03-01"
    checkIn := some "2024-03-01T09:30:00"
    status := some "present"
    flags := some { isHoliday := true } }

/-- A raw record with no check-in, all three flags set and no status. -/
def rawAllFlags : RawRecord :=
  { date := "2024-03-02"
    flags := some { isLeave := true, isHoliday := true, isWeekend := true } }

/-- A raw record with no check-in, no flags and no status. -/
def rawBare : RawRecord :=
  { date := "2024-03-03" }

/-- A processed record dated 2024-03-01 (the bulk-update example). -/
def marchFirstRecord : ProcessedRecord :=
  { id := some "rec1", date := "2024-03-01", status := "absent" }

/-- A processed record whose location sits on the equator: latitude 0 is
present, numeric and not NaN, but falsy in JS. -/
def zeroLatitudeRecord : ProcessedRecord :=
  { id := some "rec2", date := "2024-03-04", status := "present"
    location := some { latitude := .num 0, longitude := .num (155/2) } }

/-- A processed record for pagination samples. -/
def pageRecord (i : Nat) (d : String) : ProcessedRecord :=
  { id := some (toString i), date := d, status := "present" }

/-- Fifteen processed records with valid dates (three share one date, to
exercise stability). -/
def sampleRecords : List ProcessedRecord :=
  [pageRecord 0 "2024-03-01", pageRecord 1 "2024-03-02",
   pageRecord 2 "2024-03-03", pageRecord 3 "2024-03-03",
   pageRecord 4 "2024-03-03", pageRecord 5 "2024-03-06",
   pageRecord 6 "2024-03-07", pageRecord 7 "2024-03-08",
   pageRecord 8 "2024-03-09", pageRecord 9 "2024-03-10",
   pageRecord 10 "2024-03-11", pageRecord 11 "2024-03-12",
   pageRecord 12 "2024-03-13", pageRecord 13 "2024-03-14",
   pageRecord 14 "2024-03-15"]

/-! ## A total key order agreeing with the comparator on valid dates -/

/-- The date key with NaN defaulted, used to compare the comparator
against a globally transitive total order in the stability proofs. -/
def dateKeyD (s : String) : Int :=
  (dateMs s).getD 0

/-- A globally total and transitive order that agrees with recordLE on
records whose dates are valid. -/
def recordLEtotal (order : SortOrder) (a b : ProcessedRecord) : Bool :=
  match order with
  | .desc => decide (dateKeyD b.date ≤ dateKeyD a.date)
  | .asc => decide (dateKeyD a.date ≤ dateKeyD b.date)

/-! ## Helper lemmas on merge sort: congruence and stability -/

/-- List.merge only compares an element of the left list with an element
of the right list, so two orders that agree on such pairs merge
identically. -/
theorem merge_congr {α : Type} {le le' : α → α → Bool} :
    ∀ (xs ys : List α), (∀ a ∈ xs, ∀ b ∈ ys, le a b = le' a b) →
      List.merge xs ys le = List.merge xs ys le'
  | [], ys, _ => by simp
  | x :: xs, [], _ => by simp
  | x :: xs, y :: ys, h => by
    rw [List.cons_merge_cons, List.cons_merge_cons,
      h x (List.mem_cons_self x xs) y (List.mem_cons_self y ys)]
    split
    · rw [merge_congr xs (y :: ys)
        (fun a ha b hb => h a (List.mem_cons_of_mem x ha) b hb)]
    · rw [merge_congr (x :: xs) ys
        (fun a ha b hb => h a ha b (List.mem_cons_of_mem y hb))]
termination_by xs ys => xs.length + ys.length

/-- List.mergeSort only compares elements of its input list, so two
orders that agree on pairs from the list sort it identically. -/
theorem mergeSort_congr {α : Type} {le le' : α → α → Bool} :
    ∀ (l : List α), (∀ a ∈ l, ∀ b ∈ l, le a b = le' a b) →
      List.mergeSort l le = List.mergeSort l le'
  | [], _ => by simp
  | [a], _ => by simp
  | a :: b :: xs, h => by
    have hlen1 : (List.splitInTwo ⟨a :: b :: xs, rfl⟩).1.1.length <
        xs.length + 1 + 1 := by
      simp [List.splitInTwo_fst]; omega
    have hlen2 : (List.splitInTwo ⟨a :: b :: xs, rfl⟩).2.1.length <
        xs.length + 1 + 1 := by
      simp [List.splitInTwo_snd]; omega
    have hsub1 : ∀ x ∈ (List.splitInTwo ⟨a :: b :: xs, rfl⟩).1.1,
        x ∈ a :: b :: xs := by
      rw [List.splitInTwo_fst]
      exact fun x hx => List.take_subset _ _ hx
    have hsub2 : ∀ x ∈ (List.splitInTwo ⟨a :: b :: xs, rfl⟩).2.1,
        x ∈ a :: b :: xs := by
      rw [List.splitInTwo_snd]
      exact fun x hx => List.drop_subset _ _ hx
    simp only [List.mergeSort]
    rw [mergeSort_congr (List.splitInTwo ⟨a :: b :: xs, rfl⟩).1.1
        (fun x hx y hy => h x (hsub1 x hx) y (hsub1 y hy)),
      mergeSort_congr (List.splitInTwo ⟨a :: b :: xs, rfl⟩).2.1
        (fun x hx y hy => h x (hsub2 x hx) y (hsub2 y hy))]
    exact merge_congr _ _
      (fun x hx y hy => h x (hsub1 x (List.mem_mergeSort.mp hx))
        y (hsub2 y (List.mem_mergeSort.mp hy)))
termination_by l => l.length

/-- Stability of mergeSort, as filter preservation: if all elements
satisfying p are mutually no-later under a transitive total order, the
sort leaves their relative order (hence the filtered sequence) intact. -/
theorem mergeSort_filter_eq {α : Type} {le : α → α → Bool}
    (trans : ∀ a b c : α, le a b = true → le b c = true → le a c = true)
    (total : ∀ a b : α, (le a b || le b a) = true)
    (p : α → Bool)
    (hp : ∀ a b : α, p a = true → p b = true → le a b = true)
    (l : List α) : (List.mergeSort l le).filter p = l.filter p := by
  have hpair : List.Pairwise (fun a b => le a b = true) (l.filter p) :=
    List.pairwise_of_forall_mem_list
      (fun a ha b hb => hp a b (List.of_mem_filter ha) (List.of_mem_filter hb))
  have hsubl : (l.filter p).Sublist (List.mergeSort l le) :=
    List.sublist_mergeSort trans total hpair (List.filter_sublist l)
  have hfil : ((l.filter p).filter p).Sublist ((List.mergeSort l le).filter p) :=
    hsubl.filter p
  rw [List.filter_filter] at hfil
  have hself : (l.filter (fun a => p a && p a)) = l.filter p := by
    apply List.filter_congr
    intro a _
    cases hpa : p a <;> simp
  rw [hself] at hfil
  have hperm : ((List.mergeSort l le).filter p).Perm (l.filter p) :=
    (List.mergeSort_perm l le).filter p
  exact (hfil.eq_of_length hperm.length_eq.symm).symm

/-- recordLE agrees with recordLEtotal whenever both dates are valid. -/
theorem recordLE_eq_total {a b : ProcessedRecord} (order : SortOrder)
    (ha : (dateMs a.date).isSome = true) (hb : (dateMs b.date).isSome = true) :
    recordLE order a b = recordLEtotal order a b := by
  obtain ⟨x, hx⟩ := Option.isSome_iff_exists.mp ha
  obtain ⟨y, hy⟩ := Option.isSome_iff_exists.mp hb
  cases order <;>
    simp [recordLE, recordLEtotal, compareRecords, dateKeyD, hx, hy]

/-- recordLEtotal is transitive. -/
theorem recordLEtotal_trans (order : SortOrder) :
    ∀ a b c : ProcessedRecord, recordLEtotal order a b = true →
      recordLEtotal order b c = true → recordLEtotal order a c = true := by
  intro a b c hab hbc
  cases order <;> simp [recordLEtotal] at * <;> omega

/-- recordLEtotal is total. -/
theorem recordLEtotal_total (order : SortOrder) :
    ∀ a b : ProcessedRecord,
      (recordLEtotal order a b || recordLEtotal order b a) = true := by
  intro a b
  cases order <;> simp [recordLEtotal] <;> omega

/-- On a list of records with valid dates, the source's sort equals the
same stable sort under the total key order. -/
theorem sortRecords_eq_total (order : SortOrder) {l : List ProcessedRecord}
    (hval : ∀ r ∈ l, (dateMs r.date).isSome = true) :
    sortRecords order l = List.mergeSort l (recordLEtotal order) :=
  mergeSort_congr l
    (fun a ha b hb => recordLE_eq_total order (hval a ha) (hval b hb))

/-- Records sharing one date are mutually no-later under recordLEtotal. -/
theorem recordLEtotal_of_same_date (order : SortOrder) (d : String) :
    ∀ a b : ProcessedRecord, (a.date == d) = true → (b.date == d) = true →
      recordLEtotal order a b = true := by
  intro a b ha hb
  rw [beq_iff_eq] at ha hb
  cases order <;> simp [recordLEtotal, ha, hb]

/-! ## Claim theorems -/

/-- C1: for every attendance record with a (truthy) checkIn, the
resolved finalStatus is the backend-supplied status, defaulting to
"absent" exactly when the status is JS-falsy (missing or empty), and no
flag combination changes the result. -/
theorem spec_C1 (r : RawRecord) (h : jsTruthyStr r.checkIn = true) :
    (∀ s, r.status = some s → s ≠ "" → (processRecord r).status = s) ∧
    (jsTruthyStr r.status = false → (processRecord r).status = "absent") ∧
    (∀ fl, (processRecord { r with flags := fl }).status =
      (processRecord r).status) := by
  refine ⟨?_, ?_, ?_⟩
  · intro s hs hne
    simp [processRecord, resolveFinalStatus, h, jsOrDefault, hs, hne]
  · intro hst
    match hstatus : r.status with
    | none => simp [processRecord, resolveFinalStatus, h, jsOrDefault, hstatus]
    | some s =>
      rw [hstatus] at hst
      have hs : s = "" := by
        by_contra hne
        simp [jsTruthyStr, hne] at hst
      subst hs
      simp [processRecord, resolveFinalStatus, h, jsOrDefault, hstatus]
  · intro fl
    simp [processRecord, resolveFinalStatus, h]

/-- Witness for C1: a checked-in record flagged as holiday keeps the
backend status "present". -/
theorem spec_C1_witness :
    (processRecord rawCheckedInHoliday).status = "present" :=
  (spec_C1 rawCheckedInHoliday (by decide)).1 "present" (by decide) (by decide)

/-- C2: for every record with no (truthy) checkIn, the precedence is
leave (flag or backend status) over holiday over weekend, falling back
to the backend status with the "absent" default; all three flags give
"leave", and no flags with no status gives "absent". -/
theorem spec_C2 (r : RawRecord) (h : jsTruthyStr r.checkIn = false) :
    ((flagsIsLeave r.flags = true ∨ r.status = some "leave") →
      (processRecord r).status = "leave") ∧
    (flagsIsLeave r.flags = false → r.status ≠ some "leave" →
      flagsIsHoliday r.flags = true → (processRecord r).status = "holiday") ∧
    (flagsIsLeave r.flags = false → r.status ≠ some "leave" →
      flagsIsHoliday r.flags = false → flagsIsWeekend r.flags = true →
      (processRecord r).status = "weekend") ∧
    (flagsIsLeave r.flags = false → r.status ≠ some "leave" →
      flagsIsHoliday r.flags = false → flagsIsWeekend r.flags = false →
      (processRecord r).status = jsOrDefault r.status "absent") ∧
    (flagsIsLeave r.flags = true → flagsIsHoliday r.flags = true →
      flagsIsWeekend r.flags = true → (processRecord r).status = "leave") ∧
    (flagsIsLeave r.flags = false → flagsIsHoliday r.flags = false →
      flagsIsWeekend r.flags = false → r.status = none →
      (processRecord r).status = "absent") := by
  refine ⟨?_, ?_, ?_, ?_, ?_, ?_⟩ <;> intros <;>
    simp_all [processRecord, resolveFinalStatus, jsOrDefault]

/-- Witness for C2: all three flags resolve to "leave"; a bare record
resolves to "absent". -/
theorem spec_C2_witness :
    (processRecord rawAllFlags).status = "leave" ∧
    (processRecord rawBare).status = "absent" :=
  ⟨(spec_C2 rawAllFlags (by decide)).1 (Or.inl (by decide)),
   (spec_C2 rawBare (by decide)).2.2.2.2.2 (by decide) (by decide)
     (by decide) rfl⟩

/-- C3 counterexample: a checked-in record flagged as holiday with no
title gets holidayTitle "Holiday" even though its finalStatus is
"present", not "holiday" — so the fallback is not governed by the
resolved finalStatus. -/
theorem spec_C3_counterexample :
    (processRecord rawCheckedInHoliday).holidayTitle = some "Holiday" ∧
    (processRecord rawCheckedInHoliday).status ≠ "holiday" := by
  decide

/-- C3 (amended): the resolved holidayTitle is the record's title when
that is truthy; otherwise it is "Holiday" exactly when flags.isHoliday
is set (not when finalStatus is "holiday"), and absent in every other
case. -/
theorem spec_C3 (r : RawRecord) :
    (jsTruthyStr r.holidayTitle = true →
      (processRecord r).holidayTitle = r.holidayTitle) ∧
    (jsTruthyStr r.holidayTitle = false →
      (((processRecord r).holidayTitle = some "Holiday") ↔
        flagsIsHoliday r.flags = true) ∧
      (flagsIsHoliday r.flags = false →
        (processRecord r).holidayTitle = none)) := by
  constructor
  · intro h
    simp [processRecord, jsOrOpt, h]
  · intro h
    constructor
    · cases hh : flagsIsHoliday r.flags <;>
        simp [processRecord, jsOrOpt, h, hh]
    · intro hh
      simp [processRecord, jsOrOpt, h, hh]

/-- Witness for C3: no title supplied and the holiday flag set yields
the "Holiday" fallback. -/
theorem spec_C3_witness :
    (processRecord rawAllFlags).holidayTitle = some "Holiday" :=
  ((spec_C3 rawAllFlags).2 (by decide)).1.mpr (by decide)

/-- C10: the check-in and check-out buttons are never simultaneously
enabled; check-in is disabled whenever isCheckedIn holds, check-out is
disabled whenever it does not, and a complete daily cycle disables
both. -/
theorem spec_C10 (h : HeaderProps) :
    (checkInDisabled h = true ∨ checkOutDisabled h = true) ∧
    (h.isCheckedIn = true → checkInDisabled h = true) ∧
    (h.isCheckedIn = false → checkOutDisabled h = true) ∧
    (h.dailyCycleComplete = true →
      checkInDisabled h = true ∧ checkOutDisabled h = true) := by
  obtain ⟨a, b, c, d, e, f⟩ := h
  revert a b c d e f
  decide

/-- Witness for C10: with nothing set, the check-out button is
disabled. -/
theorem spec_C10_witness :
    checkOutDisabled
      { isCheckedIn := false, dailyCycleComplete := false
        checkInLoading := false, checkOutLoading := false
        locationLoading := false, wfhRequestPending := false } = true :=
  (spec_C10 _).2.2.1 rfl

/-- C4: the displayed window is the slice from windowIndex * pageSize of
length pageSize of the filtered sorted sequence, clipped to its bounds;
an out-of-range windowIndex gives an empty list, and a filtered sorted
sequence of 15 records with page size 7 gives windows of 7, 7, 1 and 0
records. -/
theorem spec_C4 (data : List ProcessedRecord) (filter : String)
    (order : SortOrder) (w p i : Nat) :
    updateCurrentWindow data w filter order =
      windowSlice (sortedRecords data filter order) w recordsPerPage ∧
    (windowSlice (sortedRecords data filter order) w p).length =
      min p ((sortedRecords data filter order).length - w * p) ∧
    (i < p → (windowSlice (sortedRecords data filter order) w p)[i]? =
      (sortedRecords data filter order)[w * p + i]?) ∧
    ((sortedRecords data filter order).length ≤ w * p →
      windowSlice (sortedRecords data filter order) w p = []) ∧
    ((sortedRecords data filter order).length = 15 →
      (windowSlice (sortedRecords data filter order) 0 7).length = 7 ∧
      (windowSlice (sortedRecords data filter order) 1 7).length = 7 ∧
      (windowSlice (sortedRecords data filter order) 2 7).length = 1 ∧
      (windowSlice (sortedRecords data filter order) 3 7).length = 0) := by
  refine ⟨rfl, ?_, ?_, ?_, ?_⟩
  · simp [windowSlice, Nat.min_comm]
  · intro hip
    simp [windowSlice, List.getElem?_take, hip, List.getElem?_drop]
  · intro hle
    simp [windowSlice, List.drop_eq_nil_of_le hle]
  · intro h15
    refine ⟨?_, ?_, ?_, ?_⟩ <;> simp [windowSlice, h15]

/-- Witness for C4: on fifteen concrete records with page size 7, the
third window holds exactly one record. -/
theorem spec_C4_witness :
    (windowSlice (sortedRecords sampleRecords "all" SortOrder.desc) 2 7).length
      = 1 :=
  ((spec_C4 sampleRecords "all" SortOrder.desc 2 7 0).2.2.2.2
    (by simp [sortedRecords, sortRecords, filterByStatus, sampleRecords])).2.2.1

/-- C5 counterexample: with an empty record set the code's totalPages is
Math.ceil(0 / 7) = 0, not the claimed minimum of 1. -/
theorem spec_C5_counterexample :
    totalPages (getFilteredDataLength [] "all") = 0 ∧
    totalPages (getFilteredDataLength [] "all") ≠ 1 := by
  decide

/-- C5 (amended): totalPages is exactly the ceiling of the filtered
length over the page size — hence 0, not 1, when the filtered set is
empty — and a page change below 1 or past totalPages leaves the
displayed window and the page cursor unchanged. -/
theorem spec_C5 (allData : List ProcessedRecord) (filter : String)
    (order : SortOrder) (st : TableState) (newPage : Int) :
    (getFilteredDataLength allData filter ≤
      totalPages (getFilteredDataLength allData filter) * recordsPerPage ∧
     totalPages (getFilteredDataLength allData filter) * recordsPerPage <
      getFilteredDataLength allData filter + recordsPerPage) ∧
    (getFilteredDataLength allData filter = 0 →
      totalPages (getFilteredDataLength allData filter) = 0) ∧
    (newPage < 1 ∨
      (totalPages (getFilteredDataLength allData filter) : Int) < newPage →
      handlePageChange allData filter order st newPage = st) := by
  refine ⟨⟨?_, ?_⟩, ?_, ?_⟩
  · simp only [totalPages, recordsPerPage]
    omega
  · simp only [totalPages, recordsPerPage]
    omega
  · intro h0
    simp [totalPages, recordsPerPage, h0]
  · intro h
    have hcond : ¬(1 ≤ newPage ∧ newPage ≤
        ((totalPages (getFilteredDataLength allData filter) : Nat) : Int)) := by
      rcases h with h | h <;> omega
    simp only [handlePageChange]
    rw [if_neg hcond]

/-- Witness for C5: requesting page 99 of the fifteen sample records
(three pages) does not change the state. -/
theorem spec_C5_witness :
    handlePageChange sampleRecords "all" SortOrder.desc
      { displayedData := [], currentWindowIndex := 0 } 99 =
      { displayedData := [], currentWindowIndex := 0 } :=
  (spec_C5 sampleRecords "all" SortOrder.desc
    { displayedData := [], currentWindowIndex := 0 } 99).2.2
    (Or.inr (by decide))

/-- C7: a bulk status update auto-derives checkIn and checkOut from the
target status and the record's date: present gives 09:30:00 to
17:30:00 of that date, half-day gives 09:30:00 to 13:30:00, and absent
sets both to null. -/
theorem spec_C7 (employeeId : String) (r : ProcessedRecord) (b : String)
    (hb : toBaseDate r.date = some b) :
    buildBulkUpdate "present" employeeId r = some
      { recordId := jsOrDefault r.id "new", status := "present"
        employeeId := employeeId, date := r.date
        checkIn := some (some (b ++ "T09:30:00"))
        checkOut := some (some (b ++ "T17:30:00")) } ∧
    buildBulkUpdate "half-day" employeeId r = some
      { recordId := jsOrDefault r.id "new", status := "half-day"
        employeeId := employeeId, date := r.date
        checkIn := some (some (b ++ "T09:30:00"))
        checkOut := some (some (b ++ "T13:30:00")) } ∧
    buildBulkUpdate "absent" employeeId r = some
      { recordId := jsOrDefault r.id "new", status := "absent"
        employeeId := employeeId, date := r.date
        checkIn := some none, checkOut := some none } := by
  refine ⟨?_, ?_, ?_⟩ <;> simp [buildBulkUpdate, hb]

/-- Witness for C7: a half-day update on a record dated 2024-03-01
yields checkIn 2024-03-01T09:30:00 and checkOut 2024-03-01T13:30:00. -/
theorem spec_C7_witness :
    buildBulkUpdate "half-day" "emp1" marchFirstRecord = some
      { recordId := "rec1", status := "half-day", employeeId := "emp1"
        date := "2024-03-01"
        checkIn := some (some "2024-03-01T09:30:00")
        checkOut := some (some "2024-03-01T13:30:00") } :=
  (spec_C7 "emp1" marchFirstRecord "2024-03-01" (by decide)).2.1

/-- C8: a task-report submission (new or edited) whose task list is
empty after trimming and dropping empty entries is rejected locally
with a validation message and nothing is sent; otherwise exactly the
trimmed non-empty tasks are sent. -/
theorem spec_C8 (tasks : List String) (submitDate : String)
    (reportDate : Option String) (createdAt : String) :
    (normalizeTasks tasks = [] →
      handleSubmitTasks tasks submitDate =
        .rejected "Please enter at least one task" ∧
      handleSaveEdit tasks reportDate createdAt =
        .rejected "Please enter at least one task") ∧
    (normalizeTasks tasks ≠ [] →
      handleSubmitTasks tasks submitDate =
        .submitted { tasks := normalizeTasks tasks, date := submitDate } ∧
      ∀ payload, handleSaveEdit tasks reportDate createdAt =
        .submitted payload → payload.tasks = normalizeTasks tasks) := by
  constructor
  · intro h
    constructor <;> simp [handleSubmitTasks, handleSaveEdit, h]
  · intro h
    have hlen : ((normalizeTasks tasks).length == 0) = false := by
      simpa [List.length_eq_zero] using h
    constructor
    · simp [handleSubmitTasks, hlen]
    · intro payload hp
      simp only [handleSaveEdit, hlen, Bool.false_eq_true, if_false] at hp
      cases hp
      rfl

/-- Witness for C8: a list of one blank task is rejected; a list with
one real task is submitted with that task trimmed. -/
theorem spec_C8_witness :
    handleSubmitTasks ["   "] "2024-03-05" =
      .rejected "Please enter at least one task" ∧
    handleSubmitTasks ["write spec "] "2024-03-05" =
      .submitted { tasks := ["write spec"], date := "2024-03-05" } :=
  ⟨((spec_C8 ["   "] "2024-03-05" none "").1 (by decide)).1,
   by
    have h := ((spec_C8 ["write spec "] "2024-03-05" none "").2 (by decide)).1
    simpa using h⟩

/-- C9 counterexample: a record whose latitude is 0 (present, numeric
and not NaN) is rejected by hasValidLocation, because 0 is falsy in
JS, refuting the claimed exact characterization. -/
theorem spec_C9_counterexample :
    hasValidLocation zeroLatitudeRecord = false ∧
    specValidLocation zeroLatitudeRecord = true := by
  decide

/-- C9 (amended): hasValidLocation accepts exactly the records whose
location is non-null with both coordinates non-NaN and nonzero
numbers; a missing raw location, or one with a falsy coordinate, is
processed to null (no location available) without error. -/
theorem spec_C9 (r : ProcessedRecord) (rl : RawLocation) :
    (hasValidLocation r = true ↔
      ∃ la lo : ℚ,
        r.location = some { latitude := .num la, longitude := .num lo } ∧
        la ≠ 0 ∧ lo ≠ 0) ∧
    processLocation none = none ∧
    ((jsTruthyPrim rl.latitude = false ∨ jsTruthyPrim rl.longitude = false) →
      processLocation (some rl) = none) := by
  refine ⟨?_, rfl, ?_⟩
  · match hloc : r.location with
    | none => simp [hasValidLocation, hloc]
    | some loc =>
      match loc with
      | ⟨la, lo⟩ =>
        cases la <;> cases lo <;>
          simp [hasValidLocation, hloc, JSNumber.truthy, JSNumber.isNan]
        rename_i q1 q2
        exact ⟨fun h => ⟨q1, q2, ⟨rfl, rfl⟩, h.1, h.2⟩,
          fun ⟨la, lo, ⟨h1, h2⟩, h3, h4⟩ => ⟨h1 ▸ h3, h2 ▸ h4⟩⟩
  · intro h
    rcases h with h | h <;> simp [processLocation, h]

/-- Witness for C9: a raw location with latitude 0 is processed to
null. -/
theorem spec_C9_witness :
    processLocation (some
      { latitude := some (.num (.num 0))
        longitude := some (.str "77.5") }) = none :=
  (spec_C9 zeroLatitudeRecord
    { latitude := some (.num (.num 0)), longitude := some (.str "77.5") }).2.2
    (Or.inl (by decide))

/-- C6: the sort compares by date only, descending is the default
order, the output is sorted by the comparator, and the sort is stable:
on any list of records with valid dates, records sharing a date keep
their relative input order, also after sorting descending and then
ascending. -/
theorem spec_C6 (order : SortOrder) (l : List ProcessedRecord) (d : String)
    (hval : ∀ r ∈ l, (dateMs r.date).isSome = true) :
    (∀ a b a2 b2 : ProcessedRecord, a.date = a2.date → b.date = b2.date →
      compareRecords order a b = compareRecords order a2 b2) ∧
    defaultSortOrder = SortOrder.desc ∧
    (sortRecords order l).Pairwise (fun a b => recordLE order a b = true) ∧
    (sortRecords order l).filter (fun r => r.date == d) =
      l.filter (fun r => r.date == d) ∧
    (sortRecords SortOrder.asc (sortRecords SortOrder.desc l)).filter
      (fun r => r.date == d) = l.filter (fun r => r.date == d) := by
  refine ⟨?_, rfl, ?_, ?_, ?_⟩
  · intro a b a2 b2 h1 h2
    simp [compareRecords, h1, h2]
  · rw [sortRecords_eq_total order hval]
    have hs := @List.sorted_mergeSort ProcessedRecord (recordLEtotal order)
      (recordLEtotal_trans order) (recordLEtotal_total order) l
    exact hs.imp_of_mem (fun ha hb h => by
      rw [recordLE_eq_total order (hval _ (List.mem_mergeSort.mp ha))
        (hval _ (List.mem_mergeSort.mp hb))]
      exact h)
  · rw [sortRecords_eq_total order hval]
    exact mergeSort_filter_eq (recordLEtotal_trans order)
      (recordLEtotal_total order) _ (recordLEtotal_of_same_date order d) l
  · have hval2 : ∀ r ∈ sortRecords SortOrder.desc l,
        (dateMs r.date).isSome = true :=
      fun r hr => hval r (List.mem_mergeSort.mp hr)
    have hd : (sortRecords SortOrder.desc l).filter (fun r => r.date == d) =
        l.filter (fun r => r.date == d) := by
      rw [sortRecords_eq_total SortOrder.desc hval]
      exact mergeSort_filter_eq (recordLEtotal_trans SortOrder.desc)
        (recordLEtotal_total SortOrder.desc) _
        (recordLEtotal_of_same_date SortOrder.desc d) l
    have ha : (sortRecords SortOrder.asc (sortRecords SortOrder.desc l)).filter
        (fun r => r.date == d) =
        (sortRecords SortOrder.desc l).filter (fun r => r.date == d) := by
      rw [sortRecords_eq_total SortOrder.asc hval2]
      exact mergeSort_filter_eq (recordLEtotal_trans SortOrder.asc)
        (recordLEtotal_total SortOrder.asc) _
        (recordLEtotal_of_same_date SortOrder.asc d) _
    rw [ha, hd]

/-- Witness for C6: the three sample records dated 2024-03-03 appear in
the descending sort output in their input order. -/
theorem spec_C6_witness :
    (sortRecords SortOrder.desc sampleRecords).filter
      (fun r => r.date == "2024-03-03") =
    sampleRecords.filter (fun r => r.date == "2024-03-03") :=
  (spec_C6 SortOrder.desc sampleRecords "2024-03-03" (by decide)).2.2.2.1
